import Mathlib

/-!
Verification of the itinerary engine of `travel_guide_python.py`.

The engine consists of three pure functions over an explicit pseudo-random
source: `generate_weather_forecast`, `calculate_value_score` and
`generate_itinerary`.  Python's global `random` module is modelled by an
explicit stream of natural numbers together with a position counter
(`Rand`); `random.randint(a, b)` consumes one stream value `v` and returns
`a + v % (b - a + 1)`, and `random.choice(l)` on a non-empty list consumes
one value `v` and returns the element at index `v % l.length`.  Every
possible outcome of the Python generator corresponds to some stream, so
quantifying over all `Rand` values quantifies over all random outcomes.

Python strings are Lean `String`s; `str.lower`, `in` (substring test) and
`str.replace` are implemented below on the character lists of the strings.
Python dicts of activity templates are association lists whose key order is
the insertion order of the Python source.
-/

namespace TravelGuide

/-! ### String helpers: Python `in`, `str.lower`, `str.replace` -/

/-- `isPreL pat l` is true when `pat` is a prefix of `l`. -/
def isPreL : List Char → List Char → Bool
  | [], _ => true
  | _ :: _, [] => false
  | p :: ps, h :: hs => p == h && isPreL ps hs

/-- `containsSubL hay pat` is Python's `pat in hay` on character lists. -/
def containsSubL : List Char → List Char → Bool
  | [], pat => pat.isEmpty
  | c :: hs, pat => isPreL pat (c :: hs) || containsSubL hs pat

/-- Python's substring test `pat in s`. -/
def strContains (s pat : String) : Bool := containsSubL s.data pat.data

/-- ASCII lower-casing of one character. -/
def toLowerCh (c : Char) : Char :=
  if 65 ≤ c.toNat ∧ c.toNat ≤ 90 then Char.ofNat (c.toNat + 32) else c

/-- Python's `s.lower()` (ASCII; all titles in the source are ASCII). -/
def strLower (s : String) : String := ⟨s.data.map toLowerCh⟩

/-- Left-to-right non-overlapping replacement on character lists, with fuel
bounded by the length of the haystack (the pattern used in the source,
`"Walking"`, is non-empty, so the fuel suffices). -/
def replaceL : Nat → List Char → List Char → List Char → List Char
  | 0, hay, _, _ => hay
  | _ + 1, [], _, _ => []
  | fuel + 1, c :: hs, pat, repl =>
    if pat.isEmpty then c :: hs
    else if isPreL pat (c :: hs) then
      repl ++ replaceL fuel (List.drop pat.length (c :: hs)) pat repl
    else c :: replaceL fuel hs pat repl

/-- Python's `s.replace(pat, repl)` for non-empty `pat`. -/
def strReplace (s pat repl : String) : String :=
  ⟨replaceL s.data.length s.data pat.data repl.data⟩

/-! ### The random source -/

/-- The pseudo-random source: an infinite stream of naturals and a read
position.  Quantifying over all `Rand` values covers every outcome of
Python's `random` module. -/
structure Rand where
  stream : Nat → Nat
  pos : Nat

/-- Advance past one consumed value. -/
def Rand.advance (r : Rand) : Rand := { r with pos := r.pos + 1 }

/-- The next raw stream value. -/
def Rand.val (r : Rand) : Nat := r.stream r.pos

/-- `random.randint(a, b)`: a uniform integer in `[a, b]` (`a ≤ b` at every
call site in the source). -/
def randint (a b : Nat) (r : Rand) : Nat × Rand :=
  (a + r.val % (b - a + 1), r.advance)

/-- `random.choice(l)` for a non-empty list `l` (every call site in the
source guards non-emptiness). -/
def randChoice (l : List String) (r : Rand) : String × Rand :=
  (l.getD (r.val % l.length) "", r.advance)

/-- A concrete all-zeroes random source, used to evaluate the engine at
concrete inputs. -/
def rand0 : Rand := ⟨fun _ => 0, 0⟩

/-! ### Weather synthesizer (`generate_weather_forecast`, lines 153-171) -/

structure WeatherDay where
  day : Nat
  temp : Nat
  condition : String
  precipitation : Nat
  uv_index : Nat
  deriving DecidableEq

/-- Line 155: `weather_conditions = ['sunny', 'partly_cloudy', 'cloudy', 'rainy']`. -/
def weather_conditions : List String := ["sunny", "partly_cloudy", "cloudy", "rainy"]

/-- The loop body of `generate_weather_forecast` (lines 158-169): one entry
per iteration, day index `i + 1`; precipitation is drawn from `[0, 30]`
when the condition is rainy and from `[0, 10]` otherwise. -/
def weatherFrom : Nat → Nat → Rand → List WeatherDay
  | 0, _, _ => []
  | fuel + 1, i, r =>
    let t := randint 65 85 r
    let c := randChoice weather_conditions t.2
    let p := if c.1 = "rainy" then randint 0 30 c.2 else randint 0 10 c.2
    let u := randint 3 10 p.2
    { day := i + 1, temp := t.1, condition := c.1, precipitation := p.1, uv_index := u.1 }
      :: weatherFrom fuel (i + 1) u.2

/-- `generate_weather_forecast(days)` (line 153). -/
def generate_weather_forecast (days : Nat) (r : Rand) : List WeatherDay :=
  weatherFrom days 0 r

/-! ### Value scorer (`calculate_value_score`, lines 173-186) -/

/-- The result of `calculate_value_score`.  The three random scores are
`round(random.uniform(lo, hi), 1)` in Python; they are modelled in tenths
(e.g. `overall ∈ [70, 95]` stands for a score in `[7.0, 9.5]`), which is
exact for the rounded values.  The claims under verification only concern
`avg_daily_cost`, which is an integer in the source. -/
structure ValueScore where
  overall : Nat
  cost_of_living : Nat
  exchange_rate : Nat
  value_rating : Nat
  avg_daily_cost : Nat
  deriving DecidableEq

/-- The dict literal keyed by budget in lines 180-185 of the source. -/
def avg_daily_cost_table : List (String × Nat) :=
  [("budget", 75), ("moderate", 150), ("luxury", 300), ("ultra", 500)]

/-- `calculate_value_score(destination, budget)` (lines 173-186):
`destination` is accepted but unused; the three scores are rounded uniform
draws (modelled in tenths); `avg_daily_cost` is the dict lookup
`{...}.get(budget, 150)`. -/
def calculate_value_score (destination budget : String) (r : Rand) : ValueScore × Rand :=
  let o := randint 70 95 r
  let c := randint 65 90 o.2
  let e := randint 70 95 c.2
  let v := randint 75 95 e.2
  ({ overall := o.1, cost_of_living := c.1, exchange_rate := e.1, value_rating := v.1,
     avg_daily_cost := (avg_daily_cost_table.lookup budget).getD 150 }, v.2)

/-! ### Itinerary builder (`generate_itinerary`, lines 188-325) -/

/-- One scheduled activity, matching the dict appended per slot. -/
structure Activity where
  time : String
  title : String
  description : String
  cost : Nat
  type : String
  energy : String
  deriving DecidableEq

/-- One day of the itinerary, matching the dict appended in lines 317-323. -/
structure Day where
  day : Nat
  theme : String
  activities : List Activity
  total_cost : Nat
  walking_distance : String
  deriving DecidableEq

/-- An activity template: the `(title, description, base_cost, category)`
tuples stored in the three template dicts. -/
structure ActTemplate where
  title : String
  description : String
  cost : Nat
  category : String
  deriving DecidableEq

/-- `morning_activities` (lines 193-199), in Python dict insertion order. -/
def morning_activities : List (String × ActTemplate) :=
  [("museums", ⟨"Local Art Museum", "Explore contemporary and classical art collections", 15, "culture"⟩),
   ("nature", ⟨"National Park Exploration", "Scenic trails and wildlife viewing", 0, "nature"⟩),
   ("historic", ⟨"Historical Walking Tour", "Discover ancient architecture and stories", 10, "historic"⟩),
   ("food", ⟨"Food Market Tour", "Sample local delicacies and fresh produce", 20, "food"⟩),
   ("wellness", ⟨"Morning Yoga Session", "Beach-side meditation and stretching", 25, "wellness"⟩)]

/-- `afternoon_activities` (lines 201-207). -/
def afternoon_activities : List (String × ActTemplate) :=
  [("shopping", ⟨"Artisan Market Visit", "Local crafts and unique souvenirs", 0, "shopping"⟩),
   ("beach", ⟨"Beach Time & Water Sports", "Relax or try snorkeling/surfing", 30, "beach"⟩),
   ("culture", ⟨"Cultural Center Tour", "Traditional performances and exhibits", 12, "culture"⟩),
   ("adventure", ⟨"Adventure Activity", "Zip-lining or rock climbing experience", 50, "adventure"⟩),
   ("photography", ⟨"Photo Walk Tour", "Capture stunning vistas and street scenes", 15, "photography"⟩)]

/-- `evening_activities` (lines 209-213). -/
def evening_activities : List (String × ActTemplate) :=
  [("nightlife", ⟨"Rooftop Bar Experience", "Panoramic views with cocktails", 40, "nightlife"⟩),
   ("food", ⟨"Fine Dining Experience", "Local specialties in authentic setting", 60, "food"⟩),
   ("culture", ⟨"Traditional Show", "Music and dance performance", 25, "culture"⟩)]

/-- `morning_activities.keys()`. -/
def morningKeys : List String := morning_activities.map Prod.fst

/-- `afternoon_activities.keys()`. -/
def afternoonKeys : List String := afternoon_activities.map Prod.fst

/-- `evening_activities.keys()`. -/
def eveningKeys : List String := evening_activities.map Prod.fst

/-- The list comprehension `[k for k in table.keys() if k in interests or
not interests]` (lines 223, 256, 290). -/
def slotChoices (keys interests : List String) : List String :=
  keys.filter (fun k => interests.contains k || interests.isEmpty)

/-- The morning slot (lines 222-239): omitted when no candidate key exists;
otherwise a uniform choice, with cost forced to 0 under
`free_activities_only` and `Walking` rewritten to `Bus` in the title under
`no_walking_tours`.  The `none` branch of the lookup is unreachable since
the chosen key comes from the table's key list. -/
def morningSlot (free_only no_walking : Bool) (interests : List String) (r : Rand) :
    List Activity × Rand :=
  let morning_choices := slotChoices morningKeys interests
  if morning_choices.isEmpty then ([], r)
  else
    let c := randChoice morning_choices r
    match morning_activities.lookup c.1 with
    | none => ([], c.2)
    | some t =>
      let cost := if free_only then 0 else t.cost
      let title := if no_walking && strContains (strLower t.title) "walking"
                   then strReplace t.title "Walking" "Bus" else t.title
      ([{ time := "9:00 AM - 11:30 AM", title := title, description := t.description,
          cost := cost, type := t.category, energy := "medium" }], c.2)

/-- The lunch slot (lines 241-253): always present; tier-based cost,
overridden to 15 under `free_activities_only`; vegetarian title switch. -/
def lunchActivity (free_only : Bool) (guardrails : List String) (budget : String) : Activity :=
  let lunch_cost := if budget = "budget" then 15 else if budget = "moderate" then 25 else 45
  let lunch_cost2 := if free_only then 15 else lunch_cost
  { time := "12:00 PM - 1:30 PM",
    title := if guardrails.contains "vegetarian_required" then "Vegetarian Café"
             else "Local Cuisine Restaurant",
    description := "Authentic local flavors and regional specialties",
    cost := lunch_cost2, type := "food", energy := "low" }

/-- The afternoon slot (lines 255-270): like the morning slot but without
the title rewrite. -/
def afternoonSlot (free_only : Bool) (interests : List String) (r : Rand) :
    List Activity × Rand :=
  let afternoon_choices := slotChoices afternoonKeys interests
  if afternoon_choices.isEmpty then ([], r)
  else
    let c := randChoice afternoon_choices r
    match afternoon_activities.lookup c.1 with
    | none => ([], c.2)
    | some t =>
      let cost := if free_only then 0 else t.cost
      ([{ time := "2:00 PM - 5:00 PM", title := t.title, description := t.description,
          cost := cost, type := t.category, energy := "medium" }], c.2)

/-- The dinner slot (lines 272-284): always present; tier-based cost,
overridden to 20 under `free_activities_only`. -/
def dinnerActivity (free_only : Bool) (budget : String) : Activity :=
  let dinner_cost := if budget = "budget" then 20 else if budget = "moderate" then 35 else 65
  let dinner_cost2 := if free_only then 20 else dinner_cost
  { time := "6:30 PM - 8:00 PM", title := "Dinner at Local Restaurant",
    description := "Traditional dishes in cozy atmosphere",
    cost := dinner_cost2, type := "food", energy := "low" }

/-- The evening slot (lines 286-308): the choice is forced to `nightlife`
when not kids-friendly and nightlife is an interest, otherwise drawn from
the filtered evening keys with fallback `culture`; if the choice is a key
of the evening table the activity is appended, overridden to a free
`Evening Stroll` of category `nature` under `free_activities_only` or
`kids_friendly`. -/
def eveningChoice (kids_friendly : Bool) (interests : List String) (r : Rand) :
    String × Rand :=
  if !kids_friendly && interests.contains "nightlife" then ("nightlife", r)
  else
    let evening_choices := slotChoices eveningKeys interests
    if evening_choices.isEmpty then ("culture", r)
    else randChoice evening_choices r

/-- The evening activity construction (lines 293-308). -/
def eveningSlot (free_only kids_friendly : Bool) (interests : List String) (r : Rand) :
    List Activity × Rand :=
  let cr := eveningChoice kids_friendly interests r
  match evening_activities.lookup cr.1 with
  | none => ([], cr.2)
  | some t =>
    let act :=
      if free_only || kids_friendly then
        { time := "8:30 PM - 10:00 PM", title := "Evening Stroll",
          description := "Family-friendly walk along waterfront", cost := 0,
          type := "nature", energy := "low" }
      else
        { time := "8:30 PM - 10:00 PM", title := t.title, description := t.description,
          cost := t.cost, type := t.category, energy := "low" }
    ([act], cr.2)

/-- The theme label of line 313-315. -/
def themeFor (day_num days : Nat) : String :=
  if day_num = 1 then "Arrival & Orientation"
  else if day_num = days then "Farewell & Departure"
  else "Day " ++ toString day_num ++ " Exploration"

/-- One iteration of the day loop (lines 219-323): the five slots in
chronological order, the recomputed total cost (line 310), the walking
distance (line 311, consuming a random draw only when `no_walking_tours`
is absent) and the theme label. -/
def buildDay (days : Nat) (interests guardrails : List String) (budget : String)
    (day_num : Nat) (r : Rand) : Day × Rand :=
  let free_only := guardrails.contains "free_activities_only"
  let kids_friendly := guardrails.contains "kids_friendly"
  let no_walking := guardrails.contains "no_walking_tours"
  let mo := morningSlot free_only no_walking interests r
  let lunch := lunchActivity free_only guardrails budget
  let af := afternoonSlot free_only interests mo.2
  let dinner := dinnerActivity free_only budget
  let ev := eveningSlot free_only kids_friendly interests af.2
  let acts := mo.1 ++ lunch :: af.1 ++ dinner :: ev.1
  let wd := if no_walking then ("0.5 km", ev.2)
            else
              let n := randint 3 8 ev.2
              (toString n.1 ++ " km", n.2)
  ({ day := day_num, theme := themeFor day_num days, activities := acts,
     total_cost := (acts.map Activity.cost).sum, walking_distance := wd.1 }, wd.2)

/-- The day loop of `generate_itinerary`: `fuel` days remaining, starting
at index `day_num`, threading the random source. -/
def buildFrom (days : Nat) (interests guardrails : List String) (budget : String) :
    Nat → Nat → Rand → List Day
  | 0, _, _ => []
  | fuel + 1, day_num, r =>
    let d := buildDay days interests guardrails budget day_num r
    d.1 :: buildFrom days interests guardrails budget fuel (day_num + 1) d.2

/-- `generate_itinerary(destination, days, interests, guardrails, budget)`
(lines 188-325); `destination` is accepted but unused by the engine. -/
def generate_itinerary (destination : String) (days : Nat)
    (interests guardrails : List String) (budget : String) (r : Rand) : List Day :=
  buildFrom days interests guardrails budget days 1 r

/-- Placeholder day for safe list indexing in statements. -/
def dayDefault : Day :=
  { day := 0, theme := "", activities := [], total_cost := 0, walking_distance := "" }

/-! ### Basic lemmas about the random primitives -/

lemma randint_bounds (a b : Nat) (r : Rand) (h : a ≤ b) :
    a ≤ (randint a b r).1 ∧ (randint a b r).1 ≤ b := by
  unfold randint
  refine ⟨Nat.le_add_right a _, ?_⟩
  have hlt : r.val % (b - a + 1) < b - a + 1 := Nat.mod_lt _ (Nat.succ_pos _)
  simp only []
  omega

lemma randChoice_mem {l : List String} (hne : l ≠ []) (r : Rand) :
    (randChoice l r).1 ∈ l := by
  unfold randChoice
  have hl : 0 < l.length := List.length_pos.mpr hne
  have hlt : r.val % l.length < l.length := Nat.mod_lt _ hl
  simp only []
  rw [List.getD_eq_getElem _ _ hlt]
  exact List.getElem_mem hlt

lemma slotChoices_subset {keys interests : List String} {k : String}
    (h : k ∈ slotChoices keys interests) : k ∈ keys :=
  List.mem_of_mem_filter h

lemma contains_of_mem {l : List String} {a : String} (h : a ∈ l) :
    l.contains a = true :=
  List.elem_iff.mpr h

/-! ### Weather lemmas -/

lemma weatherFrom_length : ∀ fuel i r, (weatherFrom fuel i r).length = fuel := by
  intro fuel
  induction fuel with
  | zero => intro i r; rfl
  | succ n ih => intro i r; simp only [weatherFrom, List.length_cons, ih]

lemma weatherFrom_bounds : ∀ fuel i r, ∀ w ∈ weatherFrom fuel i r,
    65 ≤ w.temp ∧ w.temp ≤ 85 ∧ 3 ≤ w.uv_index ∧ w.uv_index ≤ 10 ∧
    (w.condition = "rainy" → w.precipitation ≤ 30) ∧
    (w.condition ≠ "rainy" → w.precipitation ≤ 10) := by
  intro fuel
  induction fuel with
  | zero => intro i r w hw; simp [weatherFrom] at hw
  | succ n ih =>
    intro i r w hw
    simp only [weatherFrom, List.mem_cons] at hw
    rcases hw with rfl | hw
    · refine ⟨(randint_bounds 65 85 r (by omega)).1, (randint_bounds 65 85 r (by omega)).2,
        (randint_bounds 3 10 _ (by omega)).1, (randint_bounds 3 10 _ (by omega)).2, ?_, ?_⟩
      · intro hc
        show (if _ = "rainy" then randint 0 30 _ else randint 0 10 _).1 ≤ 30
        rw [if_pos hc]
        exact (randint_bounds 0 30 _ (by omega)).2
      · intro hc
        show (if _ = "rainy" then randint 0 30 _ else randint 0 10 _).1 ≤ 10
        rw [if_neg hc]
        exact (randint_bounds 0 10 _ (by omega)).2
    · exact ih _ _ w hw

/-! ### Itinerary helper lemmas -/

lemma buildDay_day (days : Nat) (ints grds : List String) (budget : String)
    (n : Nat) (r : Rand) : (buildDay days ints grds budget n r).1.day = n := rfl

lemma buildDay_theme (days : Nat) (ints grds : List String) (budget : String)
    (n : Nat) (r : Rand) :
    (buildDay days ints grds budget n r).1.theme = themeFor n days := rfl

lemma buildDay_total (days : Nat) (ints grds : List String) (budget : String)
    (n : Nat) (r : Rand) :
    (buildDay days ints grds budget n r).1.total_cost =
      ((buildDay days ints grds budget n r).1.activities.map Activity.cost).sum := rfl

lemma mem_buildFrom {days : Nat} {ints grds : List String} {budget : String} :
    ∀ fuel start r d, d ∈ buildFrom days ints grds budget fuel start r →
      ∃ n r', d = (buildDay days ints grds budget n r').1 := by
  intro fuel
  induction fuel with
  | zero => intro start r d hd; simp [buildFrom] at hd
  | succ m ih =>
    intro start r d hd
    simp only [buildFrom, List.mem_cons] at hd
    rcases hd with rfl | hd
    · exact ⟨start, r, rfl⟩
    · exact ih _ _ d hd

lemma buildFrom_length {days : Nat} {ints grds : List String} {budget : String} :
    ∀ fuel start r, (buildFrom days ints grds budget fuel start r).length = fuel := by
  intro fuel
  induction fuel with
  | zero => intro start r; rfl
  | succ m ih => intro start r; simp only [buildFrom, List.length_cons, ih]

lemma buildFrom_getD {days : Nat} {ints grds : List String} {budget : String} :
    ∀ fuel start r i, i < fuel →
      ∃ r', (buildFrom days ints grds budget fuel start r).getD i dayDefault =
            (buildDay days ints grds budget (start + i) r').1 := by
  intro fuel
  induction fuel with
  | zero => intro start r i hi; omega
  | succ m ih =>
    intro start r i hi
    cases i with
    | zero => exact ⟨r, rfl⟩
    | succ j =>
      obtain ⟨r', h⟩ := ih (start + 1) (buildDay days ints grds budget start r).2 j (by omega)
      refine ⟨r', ?_⟩
      have harith : start + 1 + j = start + (j + 1) := by omega
      rw [harith] at h
      exact h

/-! ### Slot lemmas -/

lemma morningSlot_mem (fo nw : Bool) (ints : List String) (r : Rand) (a : Activity)
    (ha : a ∈ (morningSlot fo nw ints r).1) :
    a.time = "9:00 AM - 11:30 AM" ∧
    (fo = true → a.cost = 0) ∧
    (nw = true → strContains a.title "Walking" = false) := by
  simp only [morningSlot] at ha
  by_cases hemp : (slotChoices morningKeys ints).isEmpty
  · rw [if_pos hemp] at ha; simp at ha
  · rw [if_neg hemp] at ha
    have hne : slotChoices morningKeys ints ≠ [] := by
      simpa [List.isEmpty_iff] using hemp
    have hkey : (randChoice (slotChoices morningKeys ints) r).1 ∈ morningKeys :=
      slotChoices_subset (randChoice_mem hne r)
    have h5 : (randChoice (slotChoices morningKeys ints) r).1 = "museums" ∨
        (randChoice (slotChoices morningKeys ints) r).1 = "nature" ∨
        (randChoice (slotChoices morningKeys ints) r).1 = "historic" ∨
        (randChoice (slotChoices morningKeys ints) r).1 = "food" ∨
        (randChoice (slotChoices morningKeys ints) r).1 = "wellness" := by
      simpa [morningKeys, morning_activities] using hkey
    rcases h5 with h | h | h | h | h <;> rw [h] at ha
    · rw [show List.lookup "museums" morning_activities =
          some ⟨"Local Art Museum", "Explore contemporary and classical art collections",
            15, "culture"⟩ from by decide] at ha
      simp only [List.mem_singleton] at ha
      subst ha
      exact ⟨rfl, fun hf => by simp [hf], fun hn => by rw [hn]; rfl⟩
    · rw [show List.lookup "nature" morning_activities =
          some ⟨"National Park Exploration", "Scenic trails and wildlife viewing",
            0, "nature"⟩ from by decide] at ha
      simp only [List.mem_singleton] at ha
      subst ha
      exact ⟨rfl, fun hf => by simp [hf], fun hn => by rw [hn]; rfl⟩
    · rw [show List.lookup "historic" morning_activities =
          some ⟨"Historical Walking Tour", "Discover ancient architecture and stories",
            10, "historic"⟩ from by decide] at ha
      simp only [List.mem_singleton] at ha
      subst ha
      exact ⟨rfl, fun hf => by simp [hf], fun hn => by rw [hn]; rfl⟩
    · rw [show List.lookup "food" morning_activities =
          some ⟨"Food Market Tour", "Sample local delicacies and fresh produce",
            20, "food"⟩ from by decide] at ha
      simp only [List.mem_singleton] at ha
      subst ha
      exact ⟨rfl, fun hf => by simp [hf], fun hn => by rw [hn]; rfl⟩
    · rw [show List.lookup "wellness" morning_activities =
          some ⟨"Morning Yoga Session", "Beach-side meditation and stretching",
            25, "wellness"⟩ from by decide] at ha
      simp only [List.mem_singleton] at ha
      subst ha
      exact ⟨rfl, fun hf => by simp [hf], fun hn => by rw [hn]; rfl⟩

lemma afternoonSlot_mem (fo : Bool) (ints : List String) (r : Rand) (a : Activity)
    (ha : a ∈ (afternoonSlot fo ints r).1) :
    a.time = "2:00 PM - 5:00 PM" ∧
    (fo = true → a.cost = 0) ∧
    strContains a.title "Walking" = false := by
  simp only [afternoonSlot] at ha
  by_cases hemp : (slotChoices afternoonKeys ints).isEmpty
  · rw [if_pos hemp] at ha; simp at ha
  · rw [if_neg hemp] at ha
    have hne : slotChoices afternoonKeys ints ≠ [] := by
      simpa [List.isEmpty_iff] using hemp
    have hkey : (randChoice (slotChoices afternoonKeys ints) r).1 ∈ afternoonKeys :=
      slotChoices_subset (randChoice_mem hne r)
    have h5 : (randChoice (slotChoices afternoonKeys ints) r).1 = "shopping" ∨
        (randChoice (slotChoices afternoonKeys ints) r).1 = "beach" ∨
        (randChoice (slotChoices afternoonKeys ints) r).1 = "culture" ∨
        (randChoice (slotChoices afternoonKeys ints) r).1 = "adventure" ∨
        (randChoice (slotChoices afternoonKeys ints) r).1 = "photography" := by
      simpa [afternoonKeys, afternoon_activities] using hkey
    rcases h5 with h | h | h | h | h <;> rw [h] at ha
    · rw [show List.lookup "shopping" afternoon_activities =
          some ⟨"Artisan Market Visit", "Local crafts and unique souvenirs",
            0, "shopping"⟩ from by decide] at ha
      simp only [List.mem_singleton] at ha
      subst ha
      exact ⟨rfl, fun hf => by simp [hf], by rfl⟩
    · rw [show List.lookup "beach" afternoon_activities =
          some ⟨"Beach Time & Water Sports", "Relax or try snorkeling/surfing",
            30, "beach"⟩ from by decide] at ha
      simp only [List.mem_singleton] at ha
      subst ha
      exact ⟨rfl, fun hf => by simp [hf], by rfl⟩
    · rw [show List.lookup "culture" afternoon_activities =
          some ⟨"Cultural Center Tour", "Traditional performances and exhibits",
            12, "culture"⟩ from by decide] at ha
      simp only [List.mem_singleton] at ha
      subst ha
      exact ⟨rfl, fun hf => by simp [hf], by rfl⟩
    · rw [show List.lookup "adventure" afternoon_activities =
          some ⟨"Adventure Activity", "Zip-lining or rock climbing experience",
            50, "adventure"⟩ from by decide] at ha
      simp only [List.mem_singleton] at ha
      subst ha
      exact ⟨rfl, fun hf => by simp [hf], by rfl⟩
    · rw [show List.lookup "photography" afternoon_activities =
          some ⟨"Photo Walk Tour", "Capture stunning vistas and street scenes",
            15, "photography"⟩ from by decide] at ha
      simp only [List.mem_singleton] at ha
      subst ha
      exact ⟨rfl, fun hf => by simp [hf], by rfl⟩

lemma lunchActivity_spec (fo : Bool) (grds : List String) (budget : String) :
    (lunchActivity fo grds budget).time = "12:00 PM - 1:30 PM" ∧
    (fo = true → (lunchActivity fo grds budget).cost = 15) ∧
    strContains (lunchActivity fo grds budget).title "Walking" = false := by
  refine ⟨rfl, fun hf => by simp [lunchActivity, hf], ?_⟩
  cases hv : grds.contains "vegetarian_required" <;> simp only [lunchActivity, hv] <;> rfl

lemma dinnerActivity_spec (fo : Bool) (budget : String) :
    (dinnerActivity fo budget).time = "6:30 PM - 8:00 PM" ∧
    (fo = true → (dinnerActivity fo budget).cost = 20) ∧
    strContains (dinnerActivity fo budget).title "Walking" = false :=
  ⟨rfl, fun hf => by simp [dinnerActivity, hf], by rfl⟩

lemma eveningChoice_mem (kf : Bool) (ints : List String) (r : Rand) :
    (eveningChoice kf ints r).1 ∈ eveningKeys := by
  simp only [eveningChoice]
  by_cases h1 : (!kf && ints.contains "nightlife") = true
  · rw [if_pos h1]
    show ("nightlife" : String) ∈ eveningKeys
    decide
  · rw [if_neg h1]
    by_cases h2 : (slotChoices eveningKeys ints).isEmpty
    · rw [if_pos h2]
      show ("culture" : String) ∈ eveningKeys
      decide
    · rw [if_neg h2]
      exact slotChoices_subset
        (randChoice_mem (by simpa [List.isEmpty_iff] using h2) r)

lemma eveningSlot_mem (fo kf : Bool) (ints : List String) (r : Rand) (a : Activity)
    (ha : a ∈ (eveningSlot fo kf ints r).1) :
    a.time = "8:30 PM - 10:00 PM" ∧
    ((fo = true ∨ kf = true) → a.cost = 0 ∧ a.type = "nature") ∧
    strContains a.title "Walking" = false := by
  simp only [eveningSlot] at ha
  have hkey := eveningChoice_mem kf ints r
  have h3 : (eveningChoice kf ints r).1 = "nightlife" ∨
      (eveningChoice kf ints r).1 = "food" ∨
      (eveningChoice kf ints r).1 = "culture" := by
    simpa [eveningKeys, evening_activities] using hkey
  have hov : ∀ t : ActTemplate,
      a = (if (fo || kf) = true then
            ({ time := "8:30 PM - 10:00 PM", title := "Evening Stroll",
               description := "Family-friendly walk along waterfront", cost := 0,
               type := "nature", energy := "low" } : Activity)
          else
            { time := "8:30 PM - 10:00 PM", title := t.title, description := t.description,
              cost := t.cost, type := t.category, energy := "low" }) →
      strContains t.title "Walking" = false →
      a.time = "8:30 PM - 10:00 PM" ∧
      ((fo = true ∨ kf = true) → a.cost = 0 ∧ a.type = "nature") ∧
      strContains a.title "Walking" = false := by
    intro t hat htw
    by_cases hb : (fo || kf) = true
    · rw [if_pos hb] at hat
      subst hat
      exact ⟨rfl, fun _ => ⟨rfl, rfl⟩, by decide⟩
    · rw [if_neg hb] at hat
      subst hat
      refine ⟨rfl, fun hc => absurd ?_ hb, htw⟩
      rcases hc with hc | hc <;> simp [hc]
  rcases h3 with h | h | h <;> rw [h] at ha
  · rw [show List.lookup "nightlife" evening_activities =
        some ⟨"Rooftop Bar Experience", "Panoramic views with cocktails",
          40, "nightlife"⟩ from by decide] at ha
    simp only [List.mem_singleton] at ha
    exact hov ⟨"Rooftop Bar Experience", "Panoramic views with cocktails", 40, "nightlife"⟩
      ha (by decide)
  · rw [show List.lookup "food" evening_activities =
        some ⟨"Fine Dining Experience", "Local specialties in authentic setting",
          60, "food"⟩ from by decide] at ha
    simp only [List.mem_singleton] at ha
    exact hov ⟨"Fine Dining Experience", "Local specialties in authentic setting", 60, "food"⟩
      ha (by decide)
  · rw [show List.lookup "culture" evening_activities =
        some ⟨"Traditional Show", "Music and dance performance",
          25, "culture"⟩ from by decide] at ha
    simp only [List.mem_singleton] at ha
    exact hov ⟨"Traditional Show", "Music and dance performance", 25, "culture"⟩
      ha (by decide)

lemma eveningSlot_nonempty (fo kf : Bool) (ints : List String) (r : Rand) :
    ∃ a, (eveningSlot fo kf ints r).1 = [a] := by
  simp only [eveningSlot]
  have hkey := eveningChoice_mem kf ints r
  have h3 : (eveningChoice kf ints r).1 = "nightlife" ∨
      (eveningChoice kf ints r).1 = "food" ∨
      (eveningChoice kf ints r).1 = "culture" := by
    simpa [eveningKeys, evening_activities] using hkey
  rcases h3 with h | h | h <;> rw [h]
  · rw [show List.lookup "nightlife" evening_activities =
        some ⟨"Rooftop Bar Experience", "Panoramic views with cocktails",
          40, "nightlife"⟩ from by decide]
    exact ⟨_, rfl⟩
  · rw [show List.lookup "food" evening_activities =
        some ⟨"Fine Dining Experience", "Local specialties in authentic setting",
          60, "food"⟩ from by decide]
    exact ⟨_, rfl⟩
  · rw [show List.lookup "culture" evening_activities =
        some ⟨"Traditional Show", "Music and dance performance",
          25, "culture"⟩ from by decide]
    exact ⟨_, rfl⟩

/-! ### Day-level lemmas -/

lemma buildDay_activities_cases (days : Nat) (ints grds : List String) (budget : String)
    (n : Nat) (r : Rand) (a : Activity)
    (ha : a ∈ (buildDay days ints grds budget n r).1.activities) :
    (∃ r2, a ∈ (morningSlot (grds.contains "free_activities_only")
        (grds.contains "no_walking_tours") ints r2).1) ∨
    a = lunchActivity (grds.contains "free_activities_only") grds budget ∨
    (∃ r2, a ∈ (afternoonSlot (grds.contains "free_activities_only") ints r2).1) ∨
    a = dinnerActivity (grds.contains "free_activities_only") budget ∨
    (∃ r2, a ∈ (eveningSlot (grds.contains "free_activities_only")
        (grds.contains "kids_friendly") ints r2).1) := by
  simp only [buildDay] at ha
  rcases List.mem_append.mp ha with h | h
  · rcases List.mem_append.mp h with h | h
    · exact Or.inl ⟨r, h⟩
    rcases List.mem_cons.mp h with h | h
    · exact Or.inr (Or.inl h)
    · exact Or.inr (Or.inr (Or.inl ⟨_, h⟩))
  · rcases List.mem_cons.mp h with h | h
    · exact Or.inr (Or.inr (Or.inr (Or.inl h)))
    · exact Or.inr (Or.inr (Or.inr (Or.inr ⟨_, h⟩)))

lemma buildDay_walking (days : Nat) (ints grds : List String) (budget : String)
    (n : Nat) (r : Rand) (hnw : grds.contains "no_walking_tours" = true) :
    (buildDay days ints grds budget n r).1.walking_distance = "0.5 km" := by
  have hm : ("no_walking_tours" : String) ∈ grds := List.elem_iff.mp hnw
  simp [buildDay, hm]

/-- Placeholder activity for safe list indexing in statements. -/
def actDefault : Activity :=
  { time := "", title := "", description := "", cost := 0, type := "", energy := "" }

/-! ### The claims -/

/-- C1 counterexample: with `free_activities_only` set, the generated
itinerary still contains activities of non-zero cost (the lunch costs 15
and the dinner costs 20), so the claim that every activity's cost is 0 is
false at this concrete input. -/
theorem C1_counterexample :
    ¬ ∀ d ∈ generate_itinerary "Paris" 1 [] ["free_activities_only"] "moderate" rand0,
        ∀ a ∈ d.activities, a.cost = 0 := by
  decide

/-- C1 amended: if `free_activities_only` is in guardrail_tags then, for
every outcome of the random source, every activity of every Day has cost
0 except the lunch activity, whose cost is 15, and the dinner activity,
whose cost is 20 (the source forces lunch to 15 and dinner to 20, lines
243-244 and 274-275, not to 0). -/
theorem C1_free_costs (dest : String) (days : Nat) (ints grds : List String)
    (budget : String) (r : Rand) (hf : "free_activities_only" ∈ grds) :
    ∀ d ∈ generate_itinerary dest days ints grds budget r, ∀ a ∈ d.activities,
      (a.time = "12:00 PM - 1:30 PM" → a.cost = 15) ∧
      (a.time = "6:30 PM - 8:00 PM" → a.cost = 20) ∧
      (a.time ≠ "12:00 PM - 1:30 PM" → a.time ≠ "6:30 PM - 8:00 PM" → a.cost = 0) := by
  intro d hd a ha
  simp only [generate_itinerary] at hd
  obtain ⟨n, r1, rfl⟩ := mem_buildFrom days 1 r d hd
  have hfo : grds.contains "free_activities_only" = true := contains_of_mem hf
  rcases buildDay_activities_cases days ints grds budget n r1 a ha with
    ⟨r2, hm⟩ | hl | ⟨r2, haf⟩ | hdi | ⟨r2, he⟩
  · obtain ⟨ht, hc, _⟩ := morningSlot_mem _ _ ints r2 a hm
    exact ⟨fun h => absurd (ht ▸ h) (by decide), fun h => absurd (ht ▸ h) (by decide),
      fun _ _ => hc hfo⟩
  · subst hl
    obtain ⟨ht, hc, _⟩ := lunchActivity_spec (grds.contains "free_activities_only") grds budget
    exact ⟨fun _ => hc hfo, fun h => absurd (ht ▸ h) (by decide), fun h _ => absurd ht h⟩
  · obtain ⟨ht, hc, _⟩ := afternoonSlot_mem _ ints r2 a haf
    exact ⟨fun h => absurd (ht ▸ h) (by decide), fun h => absurd (ht ▸ h) (by decide),
      fun _ _ => hc hfo⟩
  · subst hdi
    obtain ⟨ht, hc, _⟩ := dinnerActivity_spec (grds.contains "free_activities_only") budget
    exact ⟨fun h => absurd (ht ▸ h) (by decide), fun _ => hc hfo, fun _ h => absurd ht h⟩
  · obtain ⟨ht, hc, _⟩ := eveningSlot_mem _ _ ints r2 a he
    exact ⟨fun h => absurd (ht ▸ h) (by decide), fun h => absurd (ht ▸ h) (by decide),
      fun _ _ => (hc (Or.inl hfo)).1⟩

/-- Witness for C1 amended at a concrete input: the hypothesis is
satisfiable and the amended property holds of the lunch activity of the
generated day. -/
theorem C1_free_costs_witness :
    "free_activities_only" ∈ (["free_activities_only"] : List String) ∧
    ((generate_itinerary "Paris" 1 [] ["free_activities_only"] "moderate" rand0).headD
        dayDefault ∈
      generate_itinerary "Paris" 1 [] ["free_activities_only"] "moderate" rand0) ∧
    ((((generate_itinerary "Paris" 1 [] ["free_activities_only"] "moderate" rand0).headD
        dayDefault).activities.getD 1 actDefault).time = "12:00 PM - 1:30 PM" →
      (((generate_itinerary "Paris" 1 [] ["free_activities_only"] "moderate" rand0).headD
        dayDefault).activities.getD 1 actDefault).cost = 15) :=
  ⟨by decide, by decide,
    (C1_free_costs "Paris" 1 [] ["free_activities_only"] "moderate" rand0 (by decide)
      ((generate_itinerary "Paris" 1 [] ["free_activities_only"] "moderate" rand0).headD
        dayDefault) (by decide)
      ((((generate_itinerary "Paris" 1 [] ["free_activities_only"] "moderate" rand0).headD
        dayDefault).activities.getD 1 actDefault)) (by decide)).1⟩

/-- C2: if `kids_friendly` is in guardrail_tags then, for every outcome of
the random source, no Day's evening activity (time window 8:30 PM - 10:00
PM) has category `nightlife`, and every such activity has cost 0 and
category `nature`. -/
theorem C2_kids_evening (dest : String) (days : Nat) (ints grds : List String)
    (budget : String) (r : Rand) (hk : "kids_friendly" ∈ grds) :
    ∀ d ∈ generate_itinerary dest days ints grds budget r, ∀ a ∈ d.activities,
      a.time = "8:30 PM - 10:00 PM" →
      a.type ≠ "nightlife" ∧ a.cost = 0 ∧ a.type = "nature" := by
  intro d hd a ha htime
  simp only [generate_itinerary] at hd
  obtain ⟨n, r1, rfl⟩ := mem_buildFrom days 1 r d hd
  have hkf : grds.contains "kids_friendly" = true := contains_of_mem hk
  rcases buildDay_activities_cases days ints grds budget n r1 a ha with
    ⟨r2, hm⟩ | hl | ⟨r2, haf⟩ | hdi | ⟨r2, he⟩
  · obtain ⟨ht, _, _⟩ := morningSlot_mem _ _ ints r2 a hm
    exact absurd (ht ▸ htime) (by decide)
  · subst hl
    obtain ⟨ht, _, _⟩ := lunchActivity_spec (grds.contains "free_activities_only") grds budget
    exact absurd (ht ▸ htime) (by decide)
  · obtain ⟨ht, _, _⟩ := afternoonSlot_mem _ ints r2 a haf
    exact absurd (ht ▸ htime) (by decide)
  · subst hdi
    obtain ⟨ht, _, _⟩ := dinnerActivity_spec (grds.contains "free_activities_only") budget
    exact absurd (ht ▸ htime) (by decide)
  · obtain ⟨_, hc, _⟩ := eveningSlot_mem _ _ ints r2 a he
    obtain ⟨hc0, hn⟩ := hc (Or.inr hkf)
    exact ⟨by rw [hn]; decide, hc0, hn⟩

/-- Witness for C2 at a concrete input: the hypotheses are satisfiable
and the property holds of the evening activity of the generated day. -/
theorem C2_kids_evening_witness :
    "kids_friendly" ∈ (["kids_friendly"] : List String) ∧
    ((((generate_itinerary "Paris" 1 [] ["kids_friendly"] "moderate" rand0).headD
        dayDefault).activities.getD 4 actDefault).type ≠ "nightlife" ∧
      (((generate_itinerary "Paris" 1 [] ["kids_friendly"] "moderate" rand0).headD
        dayDefault).activities.getD 4 actDefault).cost = 0 ∧
      (((generate_itinerary "Paris" 1 [] ["kids_friendly"] "moderate" rand0).headD
        dayDefault).activities.getD 4 actDefault).type = "nature") :=
  ⟨by decide,
    C2_kids_evening "Paris" 1 [] ["kids_friendly"] "moderate" rand0 (by decide)
      ((generate_itinerary "Paris" 1 [] ["kids_friendly"] "moderate" rand0).headD dayDefault)
      (by decide)
      ((((generate_itinerary "Paris" 1 [] ["kids_friendly"] "moderate" rand0).headD
        dayDefault).activities.getD 4 actDefault)) (by decide) (by decide)⟩

/-- C3: if `no_walking_tours` is in guardrail_tags then, for every outcome
of the random source, every Day's walking-distance label equals "0.5 km"
and no activity title contains the substring "Walking". -/
theorem C3_no_walking (dest : String) (days : Nat) (ints grds : List String)
    (budget : String) (r : Rand) (hw : "no_walking_tours" ∈ grds) :
    ∀ d ∈ generate_itinerary dest days ints grds budget r,
      d.walking_distance = "0.5 km" ∧
      ∀ a ∈ d.activities, strContains a.title "Walking" = false := by
  intro d hd
  simp only [generate_itinerary] at hd
  obtain ⟨n, r1, rfl⟩ := mem_buildFrom days 1 r d hd
  have hnw : grds.contains "no_walking_tours" = true := contains_of_mem hw
  refine ⟨buildDay_walking days ints grds budget n r1 hnw, ?_⟩
  intro a ha
  rcases buildDay_activities_cases days ints grds budget n r1 a ha with
    ⟨r2, hm⟩ | hl | ⟨r2, haf⟩ | hdi | ⟨r2, he⟩
  · exact (morningSlot_mem _ _ ints r2 a hm).2.2 hnw
  · subst hl
    exact (lunchActivity_spec (grds.contains "free_activities_only") grds budget).2.2
  · exact (afternoonSlot_mem _ ints r2 a haf).2.2
  · subst hdi
    exact (dinnerActivity_spec (grds.contains "free_activities_only") budget).2.2
  · exact (eveningSlot_mem _ _ ints r2 a he).2.2

/-- Witness for C3 at a concrete input. -/
theorem C3_no_walking_witness :
    "no_walking_tours" ∈ (["no_walking_tours"] : List String) ∧
    (((generate_itinerary "Rome" 2 ["historic"] ["no_walking_tours"] "budget"
        rand0).headD dayDefault).walking_distance = "0.5 km" ∧
      ∀ a ∈ ((generate_itinerary "Rome" 2 ["historic"] ["no_walking_tours"] "budget"
        rand0).headD dayDefault).activities, strContains a.title "Walking" = false) :=
  ⟨by decide,
    C3_no_walking "Rome" 2 ["historic"] ["no_walking_tours"] "budget" rand0 (by decide)
      ((generate_itinerary "Rome" 2 ["historic"] ["no_walking_tours"] "budget"
        rand0).headD dayDefault) (by decide)⟩

/-- C4: for every day_count in [1, 30], every other input and every outcome
of the random source, the itinerary has exactly day_count entries and the
Day at 0-based position i carries the 1-based day index i + 1. -/
theorem C4_length_day_index (dest : String) (days : Nat) (ints grds : List String)
    (budget : String) (r : Rand) (h1 : 1 ≤ days) (h2 : days ≤ 30)
    (i : Nat) (hi : i < days) :
    (generate_itinerary dest days ints grds budget r).length = days ∧
    ((generate_itinerary dest days ints grds budget r).getD i dayDefault).day = i + 1 := by
  constructor
  · simp only [generate_itinerary]
    exact buildFrom_length days 1 r
  · simp only [generate_itinerary]
    obtain ⟨r1, h⟩ := buildFrom_getD days 1 r i hi
    rw [h, buildDay_day]
    omega

/-- Witness for C4 at a concrete input. -/
theorem C4_length_day_index_witness :
    ((generate_itinerary "Paris" 2 [] [] "moderate" rand0).length = 2 ∧
      ((generate_itinerary "Paris" 2 [] [] "moderate" rand0).getD 1 dayDefault).day = 2) :=
  C4_length_day_index "Paris" 2 [] [] "moderate" rand0 (by decide) (by decide) 1 (by decide)

/-- C5: for every input and every outcome of the random source, every Day
contains a lunch activity (time window 12:00 PM - 1:30 PM) and a dinner
activity (time window 6:30 PM - 8:00 PM). -/
theorem C5_lunch_dinner_present (dest : String) (days : Nat) (ints grds : List String)
    (budget : String) (r : Rand) :
    ∀ d ∈ generate_itinerary dest days ints grds budget r,
      (∃ a ∈ d.activities, a.time = "12:00 PM - 1:30 PM") ∧
      (∃ a ∈ d.activities, a.time = "6:30 PM - 8:00 PM") := by
  intro d hd
  simp only [generate_itinerary] at hd
  obtain ⟨n, r1, rfl⟩ := mem_buildFrom days 1 r d hd
  constructor
  · refine ⟨lunchActivity (grds.contains "free_activities_only") grds budget, ?_, rfl⟩
    simp only [buildDay]
    exact List.mem_append.mpr (Or.inl (List.mem_append.mpr
      (Or.inr (List.mem_cons_self _ _))))
  · refine ⟨dinnerActivity (grds.contains "free_activities_only") budget, ?_, rfl⟩
    simp only [buildDay]
    exact List.mem_append.mpr (Or.inr (List.mem_cons_self _ _))

/-- Witness for C5 at a concrete input. -/
theorem C5_lunch_dinner_present_witness :
    ((∃ a ∈ ((generate_itinerary "Paris" 1 [] [] "luxury" rand0).headD
        dayDefault).activities, a.time = "12:00 PM - 1:30 PM") ∧
     (∃ a ∈ ((generate_itinerary "Paris" 1 [] [] "luxury" rand0).headD
        dayDefault).activities, a.time = "6:30 PM - 8:00 PM")) :=
  C5_lunch_dinner_present "Paris" 1 [] [] "luxury" rand0
    ((generate_itinerary "Paris" 1 [] [] "luxury" rand0).headD dayDefault) (by decide)

/-- C6: for every input and every outcome of the random source, every
Day's total_cost equals the sum of the costs of its activities. -/
theorem C6_total_cost (dest : String) (days : Nat) (ints grds : List String)
    (budget : String) (r : Rand) :
    ∀ d ∈ generate_itinerary dest days ints grds budget r,
      d.total_cost = (d.activities.map Activity.cost).sum := by
  intro d hd
  simp only [generate_itinerary] at hd
  obtain ⟨n, r1, rfl⟩ := mem_buildFrom days 1 r d hd
  exact buildDay_total days ints grds budget n r1

/-- Witness for C6 at a concrete input. -/
theorem C6_total_cost_witness :
    ((generate_itinerary "Tokyo" 2 ["food"] [] "budget" rand0).headD
      dayDefault).total_cost =
    ((((generate_itinerary "Tokyo" 2 ["food"] [] "budget" rand0).headD
      dayDefault).activities.map Activity.cost).sum) :=
  C6_total_cost "Tokyo" 2 ["food"] [] "budget" rand0
    ((generate_itinerary "Tokyo" 2 ["food"] [] "budget" rand0).headD dayDefault) (by decide)

/-- C7: a one-day itinerary has exactly one Day themed
"Arrival & Orientation" (not "Farewell & Departure"), and in general the
Day at 0-based position i is themed "Arrival & Orientation" when i = 0,
"Farewell & Departure" when i + 1 = day_count (and i is not 0), and
"Day i+1 Exploration" otherwise. -/
theorem C7_themes (dest : String) (days : Nat) (ints grds : List String)
    (budget : String) (r r2 : Rand) (i : Nat) (hi : i < days) :
    (generate_itinerary dest 1 [] [] "moderate" r2).map Day.theme =
      ["Arrival & Orientation"] ∧
    ((generate_itinerary dest days ints grds budget r).getD i dayDefault).theme =
      (if i = 0 then "Arrival & Orientation"
       else if i + 1 = days then "Farewell & Departure"
       else "Day " ++ toString (i + 1) ++ " Exploration") := by
  constructor
  · rfl
  · simp only [generate_itinerary]
    obtain ⟨r1, h⟩ := buildFrom_getD days 1 r i hi
    rw [h, buildDay_theme]
    unfold themeFor
    by_cases h0 : i = 0
    · subst h0
      simp
    · rw [if_neg (by omega : ¬ 1 + i = 1), if_neg h0]
      by_cases hlast : i + 1 = days
      · rw [if_pos (by omega : 1 + i = days), if_pos hlast]
      · rw [if_neg (by omega : ¬ 1 + i = days), if_neg hlast,
          (by omega : 1 + i = i + 1)]

/-- Witness for C7 at a concrete input. -/
theorem C7_themes_witness :
    ((generate_itinerary "Paris" 1 [] [] "moderate" rand0).map Day.theme =
      ["Arrival & Orientation"] ∧
    ((generate_itinerary "Paris" 3 [] [] "moderate" rand0).getD 1 dayDefault).theme =
      (if 1 = 0 then "Arrival & Orientation"
       else if 1 + 1 = 3 then "Farewell & Departure"
       else "Day " ++ toString (1 + 1) ++ " Exploration")) :=
  C7_themes "Paris" 3 [] [] "moderate" rand0 rand0 1 (by decide)

/-- C8: the avg_daily_cost field of calculate_value_score depends only on
the budget tier: 75 for "budget", 150 for "moderate", 300 for "luxury",
500 for "ultra" and 150 for any other tier, for every destination and
every outcome of the random source. -/
theorem C8_avg_daily_cost (destination budget : String) (r : Rand) :
    (calculate_value_score destination budget r).1.avg_daily_cost =
      (if budget = "budget" then 75 else if budget = "moderate" then 150
       else if budget = "luxury" then 300
       else if budget = "ultra" then 500 else 150) := by
  by_cases h1 : budget = "budget"
  · subst h1; rfl
  by_cases h2 : budget = "moderate"
  · subst h2; rfl
  by_cases h3 : budget = "luxury"
  · subst h3; rfl
  by_cases h4 : budget = "ultra"
  · subst h4; rfl
  rw [if_neg h1, if_neg h2, if_neg h3, if_neg h4]
  simp only [calculate_value_score, avg_daily_cost_table, List.lookup]
  rw [show (budget == "budget") = false from beq_eq_false_iff_ne.mpr h1,
    show (budget == "moderate") = false from beq_eq_false_iff_ne.mpr h2,
    show (budget == "luxury") = false from beq_eq_false_iff_ne.mpr h3,
    show (budget == "ultra") = false from beq_eq_false_iff_ne.mpr h4]
  rfl

/-- C9: generate_weather_forecast(n) returns exactly n entries for every
n and every outcome of the random source, and every entry has temperature
in [65, 85], UV index in [3, 10], and precipitation at most 30 when rainy
and at most 10 otherwise (the lower bound 0 holds by the type). -/
theorem C9_weather_bounds (n : Nat) (r : Rand) :
    (generate_weather_forecast n r).length = n ∧
    ∀ w ∈ generate_weather_forecast n r,
      65 ≤ w.temp ∧ w.temp ≤ 85 ∧ 3 ≤ w.uv_index ∧ w.uv_index ≤ 10 ∧
      (w.condition = "rainy" → w.precipitation ≤ 30) ∧
      (w.condition ≠ "rainy" → w.precipitation ≤ 10) :=
  ⟨weatherFrom_length n 0 r, fun w hw => weatherFrom_bounds n 0 r w hw⟩

/-- C10: for every input and every outcome of the random source, every
Day contains an evening activity (time window 8:30 PM - 10:00 PM): the
evening choice always resolves to a key of the evening table, so the
evening slot is never omitted. -/
theorem C10_evening_always (dest : String) (days : Nat) (ints grds : List String)
    (budget : String) (r : Rand) :
    ∀ d ∈ generate_itinerary dest days ints grds budget r,
      ∃ a ∈ d.activities, a.time = "8:30 PM - 10:00 PM" := by
  intro d hd
  simp only [generate_itinerary] at hd
  obtain ⟨n, r1, rfl⟩ := mem_buildFrom days 1 r d hd
  obtain ⟨a, hae⟩ := eveningSlot_nonempty (grds.contains "free_activities_only")
    (grds.contains "kids_friendly") ints
    (afternoonSlot (grds.contains "free_activities_only") ints
      (morningSlot (grds.contains "free_activities_only")
        (grds.contains "no_walking_tours") ints r1).2).2
  have ham : a ∈ (eveningSlot (grds.contains "free_activities_only")
      (grds.contains "kids_friendly") ints
      (afternoonSlot (grds.contains "free_activities_only") ints
        (morningSlot (grds.contains "free_activities_only")
          (grds.contains "no_walking_tours") ints r1).2).2).1 := by
    rw [hae]
    exact List.mem_singleton_self a
  refine ⟨a, ?_, (eveningSlot_mem _ _ ints _ a ham).1⟩
  simp only [buildDay]
  exact List.mem_append.mpr (Or.inr (List.mem_cons.mpr (Or.inr ham)))

/-- Witness for C10 at a concrete input. -/
theorem C10_evening_always_witness :
    ∃ a ∈ ((generate_itinerary "Paris" 1 ["wellness"] [] "ultra" rand0).headD
      dayDefault).activities, a.time = "8:30 PM - 10:00 PM" :=
  C10_evening_always "Paris" 1 ["wellness"] [] "ultra" rand0
    ((generate_itinerary "Paris" 1 ["wellness"] [] "ultra" rand0).headD dayDefault)
    (by decide)

end TravelGuide
